import Mathlib

/-!
Verification of the patch-queue synchronization engine of git-buildpackage
(`gbp/scripts/pq.py`, `gbp/scripts/pq_rpm.py`, `gbp/scripts/common/pq.py`).

Strings of the Python source are modelled as `List Char` (`Str` below).
Each definition is a shallow embedding of the correspondingly named Python
function; deviations forced by the modelling (external git backend,
filesystem) are noted in the doc comments.
-/

namespace GbpPq

/-- Python strings, modelled as lists of characters. -/
abbrev Str := List Char

/-- Coerce a Lean string literal into the model. -/
def str (s : String) : Str := s.data

/-- Python's `\s` character class (whitespace relevant to the regexes used
by the source: space, tab, newline, carriage return, form feed, vertical
tab). -/
def isPySpace (c : Char) : Bool :=
  c = ' ' || c = '\t' || c = '\n' || c = '\x0d' || c = '\x0c' || c = '\x0b'

/-- Case folding used for the case-insensitive regex matches (`re.I`)
of the source.  ASCII lowercasing. -/
def lowerChar (c : Char) : Char := c.toLower

/-- Lowercase a modelled string. -/
def lower (s : Str) : Str := s.map lowerChar

/-! ## 4.1 Branch naming (`gbp/scripts/common/pq.py`)

The pq-branch name pattern is a Python `%`-format string which the source
turns into an anchored regex by substituting `(?P<base>\S+)` for the
`%(branch)s` placeholder (`common/pq.py:62,118`).  We model a pattern as
either a literal with no placeholder, or a literal prefix and suffix
around one placeholder (all patterns used by the source and its doctests
have this shape; the literal parts are assumed free of regex
metacharacters, as in every pattern the tool documents). -/

inductive PqPattern where
  | noVar (lit : Str)
  | withVar (pre suf : Str)
deriving DecidableEq, Repr

/-- The default pattern `patch-queue/%(branch)s` (`common/pq.py:31`). -/
def DEFAULT_PQ_BRANCH_NAME : PqPattern := .withVar (str "patch-queue/") []

/-- Match the anchored regex `^pre(?P<base>\S+)suf$` against `s`.
Because the regex is anchored at both ends and `pre`/`suf` are literals,
the candidate for the group is uniquely the middle of `s`; the group must
be non-empty and free of whitespace (`\S+`). -/
def matchBase (pre suf s : Str) : Option Str :=
  let mid := (s.drop pre.length).take (s.length - pre.length - suf.length)
  if s = pre ++ mid ++ suf ∧ mid ≠ [] ∧ mid.all (fun c => !isPySpace c) then
    some mid
  else
    none

/-- Substitute a branch name for the `%(branch)s` placeholder
(Python `pq_format_str % dict(branch=branch)`). -/
def substBranch (pat : PqPattern) (branch : Str) : Str :=
  match pat with
  | .noVar lit => lit
  | .withVar pre suf => pre ++ branch ++ suf

/-- `is_pq_branch(branch, options)` (`common/pq.py:34`): does `branch`
match the pattern-derived anchored regex? -/
def is_pq_branch (branch : Str) (pat : PqPattern) : Bool :=
  match pat with
  | .noVar lit => branch = lit
  | .withVar pre suf => (matchBase pre suf branch).isSome

/-- `pq_branch_name(branch, options)` (`common/pq.py:68`): the patch-queue
branch for `branch`, or `none` (Python implicitly returns `None`) when
`branch` is already a patch-queue branch. -/
def pq_branch_name (branch : Str) (pat : PqPattern) : Option Str :=
  if ¬ is_pq_branch branch pat then
    some (substBranch pat branch)
  else
    none

/-- `pq_branch_base(pq_branch, options)` (`common/pq.py:92`): extract the
base branch from a patch-queue branch name; when the pattern has no
`%(branch)s` placeholder (hence the regex has no `base` group) a full
literal match yields the configured packaging branch. -/
def pq_branch_base (pq_branch : Str) (pat : PqPattern) (packaging_branch : Str) :
    Option Str :=
  match pat with
  | .noVar lit => if pq_branch = lit then some packaging_branch else none
  | .withVar pre suf => matchBase pre suf pq_branch

/-- The round trip of claim C5: derive the pq-branch name, then extract
its base again. -/
def pq_roundtrip (branch : Str) (pat : PqPattern) (fallback : Str) : Option Str :=
  (pq_branch_name branch pat).bind (fun n => pq_branch_base n pat fallback)

/-! ## The Debian script's imports and call sites
(`gbp/scripts/pq.py` against `gbp/scripts/common/pq.py`) -/

/-- The module-level bindings of `gbp/scripts/common/pq.py`: the names
bound by its `import`/`from ... import` statements (lines 21-29), the
constant `DEFAULT_PQ_BRANCH_NAME` (line 31) and its eight function
definitions (lines 34, 68, 92, 126, 140, 160, 165, 190). -/
def commonPqBindings : List Str :=
  [str "re", str "os", str "shutil", str "subprocess",
   str "GitRepositoryError", str "GitRepository",
   str "Command", str "GitCommand", str "RunAtCommand",
   str "GbpError", str "gbp", str "PatchSeries", str "Patch",
   str "DEFAULT_PQ_BRANCH_NAME",
   str "is_pq_branch", str "pq_branch_name", str "pq_branch_base",
   str "get_maintainer_from_control", str "switch_to_pq_branch",
   str "apply_single_patch", str "apply_and_commit_patch", str "drop_pq"]

/-- The names `gbp/scripts/pq.py:33-37` imports from
`gbp.scripts.common.pq`. -/
def debianPqImportList : List Str :=
  [str "is_pq_branch", str "pq_branch_name", str "pq_branch_base",
   str "parse_gbp_commands", str "format_patch",
   str "switch_to_pq_branch", str "apply_single_patch",
   str "apply_and_commit_patch", str "drop_pq",
   str "get_maintainer_from_control"]

/-- Python's `from M import a, b, ...` succeeds iff every listed name is
bound at module level in `M` (otherwise `ImportError`, and the importing
module fails to load). -/
def fromImportOk (bindings imported : List Str) : Bool :=
  imported.all (fun n => bindings.contains n)

/-- The positional-parameter signature of a Python function: the number
of parameters without default values, and the total number of
parameters. -/
structure PySig where
  required : Nat
  total : Nat
deriving DecidableEq, Repr

/-- Calling a Python function with `n` positional arguments binds iff
`required ≤ n ≤ total`; otherwise Python raises `TypeError`. -/
def bindsPositional (sig : PySig) (n : Nat) : Bool :=
  decide (sig.required ≤ n) && decide (n ≤ sig.total)

/-- Signature of `apply_and_commit_patch(repo, patch, topic=None)`
(`common/pq.py:165`). -/
def sig_apply_and_commit_patch : PySig := ⟨2, 3⟩

/-- Signature of `get_maintainer_from_control()` (`common/pq.py:126`). -/
def sig_get_maintainer_from_control : PySig := ⟨0, 0⟩

/-- The call `apply_and_commit_patch(repo, patch, maintainer, patch.topic)`
at `pq.py:277` passes four positional arguments. -/
def nargs_apply_and_commit_call : Nat := 4

/-- The call `get_maintainer_from_control(repo)` at `pq.py:254` passes one
positional argument. -/
def nargs_get_maintainer_call : Nat := 1

/-! ## Commit ↔ patch translation: `apply_and_commit_patch`
(`gbp/scripts/common/pq.py:165-188`) -/

instance {ε α : Type} [DecidableEq ε] [DecidableEq α] :
    DecidableEq (Except ε α) := fun a b =>
  match a, b with
  | .error e, .error f =>
    if h : e = f then .isTrue (by rw [h])
    else .isFalse (by intro hh; cases hh; exact h rfl)
  | .error _, .ok _ => .isFalse (by intro hh; cases hh)
  | .ok _, .error _ => .isFalse (by intro hh; cases hh)
  | .ok x, .ok y =>
    if h : x = y then .isTrue (by rw [h])
    else .isFalse (by intro hh; cases hh; exact h rfl)

/-- The error kinds raised by the modelled code paths. -/
inductive PyErr where
  | gbpError      -- `GbpError` (includes patch-apply failure)
  | gitRepoError  -- `GitRepositoryError` (backend failure)
  | typeErr       -- Python `TypeError`
  | attrErr       -- Python `AttributeError`
deriving DecidableEq, Repr

/-- Modelled from the spec: a `Patch` of `gbp.patch_series` (§3 of the
spec; the module itself is not part of this tree).  Only the attributes
the patch-queue scripts read are modelled: source path, strip level,
topic, subject, long description, and authorship.  Absent authorship
fields are empty strings (Python falsy). -/
structure Patch where
  path : Str
  strip : Nat
  topic : Option Str
  subject : Str
  long_desc : Str
  author : Str
  email : Str
  date : Str
deriving DecidableEq, Repr

/-- The slice of git state `apply_and_commit_patch` touches: the commit
object store (id paired with the commit message recorded in it) and the
commit the current branch ref (`HEAD`) resolves to.  `nextId` supplies
the id of the next commit object `commit_tree` would create.  (The
working tree and index are not modelled; the claim concerns the commit
object and the ref.) -/
structure GitState where
  objects : List (Nat × Str)
  head : Nat
  nextId : Nat
deriving DecidableEq, Repr

/-- The behavior of the external git backend and packaging metadata for
one `apply_and_commit_patch` run: whether `repo.apply_patch` succeeds on
a given patch path and strip level, whether `repo.update_ref` succeeds,
and the maintainer identity `get_maintainer_from_control` would report
(`none` models sed finding no `Maintainer:` line).  `repo.write_tree` and
`repo.commit_tree` are assumed to succeed (their failure would leave the
state unchanged and so cannot break the claim). -/
structure GitBackend where
  applyPatchOk : Str → Nat → Bool
  updateRefOk : Bool
  maintainer : Option (Str × Str)

/-- The author dict synthesized at `common/pq.py:167-179`: the patch's
authorship, falling back to the maintainer from `debian/control` when the
patch lacks author or email (Python truthiness: empty string is falsy). -/
def resolve_author (be : GitBackend) (patch : Patch) : Str × Str × Str :=
  if patch.author ≠ [] ∧ patch.email ≠ [] then
    (patch.author, patch.email, patch.date)
  else
    match be.maintainer with
    | some (n, e) => (n, e, patch.date)
    | none => (patch.author, patch.email, patch.date)

/-- The commit message built at `common/pq.py:183-185`:
`subject\n\nlong_desc`, plus a `Gbp-Pq-Topic: ` trailer when a topic is
given (Python truthiness: an empty-string topic adds no trailer). -/
def commit_msg (patch : Patch) (topic : Option Str) : Str :=
  let msg := patch.subject ++ str "\n\n" ++ patch.long_desc
  match topic with
  | some t => if t ≠ [] then msg ++ str "\nGbp-Pq-Topic: " ++ t else msg
  | none => msg

/-- `apply_and_commit_patch(repo, patch, topic=None)`
(`common/pq.py:165-188`): apply the patch, write the tree, create the
commit object via `commit_tree`, then — as a second, separate backend
call — advance `HEAD` to it via `update_ref`.  Returns the outcome and
the resulting git state. -/
def apply_and_commit_patch (be : GitBackend) (s : GitState) (patch : Patch)
    (topic : Option Str) : Except PyErr Unit × GitState :=
  let _author := resolve_author be patch
  if ¬ be.applyPatchOk patch.path patch.strip then
    (.error .gbpError, s)
  else
    let msg := commit_msg patch topic
    let commit := s.nextId
    let s1 : GitState :=
      { objects := s.objects ++ [(commit, msg)]
        head := s.head
        nextId := s.nextId + 1 }
    if be.updateRefOk then
      (.ok (), { s1 with head := commit })
    else
      (.error .gitRepoError, s1)

/-- The atomicity property claim C9 asserts of one application: either a
new commit was created and the ref advanced to it, or neither record
persists. -/
def atomicOutcome (s s' : GitState) : Prop :=
  (∃ c m, (c, m) ∈ s'.objects ∧ (∀ m', (c, m') ∉ s.objects) ∧ s'.head = c)
  ∨ (s'.objects = s.objects ∧ s'.head = s.head)

/-- Backend for the C9 counterexample: patch application succeeds but the
ref update fails (a `BackendError` per §7 of the spec). -/
def ce9_backend : GitBackend := ⟨fun _ _ => true, false, none⟩

/-- Initial git state for the C9 counterexample: one commit, `HEAD` at it. -/
def ce9_state : GitState := ⟨[(0, [])], 0, 1⟩

/-- A concrete patch for the C9 counterexample. -/
def ce9_patch : Patch :=
  ⟨str "a.patch", 1, none, str "s", str "d", str "A", str "a@b", []⟩

/-! ## Topic extraction of the Debian exporter (`gbp/scripts/pq.py:44-91`) -/

/-- The commit information the Debian exporter reads: the commit id and
the message body, modelled as its list of lines (the source iterates
`body.splitlines()`). -/
structure DCommitInfo where
  id : Str
  body : List Str
deriving DecidableEq, Repr

/-- `re.match` of the regex `gbp-pq-topic:\s*(?P<topic>\S.*)` with
`re.I` against one body line (`pq.py:48,53`): the line must start
(case-insensitively) with `gbp-pq-topic:`, followed by optional
whitespace and a topic whose first character is non-whitespace and which
extends to the end of the line. -/
def old_style_topic_match (line : Str) : Option Str :=
  if lower (line.take 13) = str "gbp-pq-topic:" then
    let rest := (line.drop 13).dropWhile (fun c => isPySpace c)
    if rest ≠ [] then some rest else none
  else
    none

/-- The loop of `parse_old_style_topic` (`pq.py:52-60`): scan the body
lines in order; a matching line overwrites the topic found so far and is
dropped, every other line is kept. -/
def old_style_loop (lines : List Str) (topic : Str) (kept : List Str) :
    Str × List Str :=
  match lines with
  | [] => (topic, kept)
  | line :: rest =>
    match old_style_topic_match line with
    | some t => old_style_loop rest t kept
    | none => old_style_loop rest topic (kept ++ [line])

/-- `parse_old_style_topic(commit_info)` (`pq.py:44-62`): returns the
topic (empty when no line matched) and the commit info with the matched
line(s) removed from the body. -/
def parse_old_style_topic (info : DCommitInfo) : Str × DCommitInfo :=
  let (topic, kept) := old_style_loop info.body [] []
  (topic, { info with body := kept })

/-- Modelled from the spec: the structured trailer recognizer of
`parse_gbp_commands` (imported at `pq.py:33-37` from
`gbp.scripts.common.pq`, which does not define it — settled as claim C3;
§4.3 of the spec describes it as a trailer-command-language parsing
`<Tag>: <Command> <value>` lines such as `Gbp: Topic <value>`,
case-insensitively).  Matches one line against tag `tag` and returns the
lowercased command keyword and its argument string. -/
def gbp_command_match (tag line : Str) : Option (Str × Str) :=
  let tagc := lower tag ++ str ":"
  if lower (line.take tagc.length) = tagc then
    let rest := (line.drop tagc.length).dropWhile (fun c => isPySpace c)
    let cmd := lower (rest.takeWhile (fun c => !isPySpace c))
    let args := (rest.dropWhile (fun c => !isPySpace c)).dropWhile
      (fun c => isPySpace c)
    if cmd ≠ [] then some (cmd, args) else none
  else
    none

/-- Insert into a Python-dict model (association list with unique keys):
a later binding replaces an earlier one. -/
def dictInsert (d : List (Str × Str)) (k v : Str) : List (Str × Str) :=
  (d.filter (fun kv => kv.1 ≠ k)) ++ [(k, v)]

/-- Python `d1.update(d2)`: bindings of `d2` take precedence. -/
def dictUpdate (d1 d2 : List (Str × Str)) : List (Str × Str) :=
  d2.foldl (fun acc kv => dictInsert acc kv.1 kv.2) d1

/-- Modelled from the spec: how `parse_gbp_commands` folds one body line
into the command mapping — a recognized argument command is recorded
with its argument, a recognized no-argument command with the empty
string, anything else is ignored; a later line overrides an earlier
one. -/
def gbp_command_step (tag : Str) (noargCmds argCmds : List Str)
    (acc : List (Str × Str)) (line : Str) : List (Str × Str) :=
  match gbp_command_match tag line with
  | some (cmd, args) =>
    if cmd ∈ argCmds then dictInsert acc cmd args
    else if cmd ∈ noargCmds then dictInsert acc cmd []
    else acc
  | none => acc

/-- Modelled from the spec: `parse_gbp_commands(info, tag, noarg_cmds,
arg_cmds)[0]` — the mapping of recognized trailer commands to their
arguments, collected over the body lines in order via
`gbp_command_step`. -/
def parse_gbp_commands (info : DCommitInfo) (tag : Str)
    (noargCmds argCmds : List Str) : List (Str × Str) :=
  info.body.foldl (gbp_command_step tag noargCmds argCmds) []

/-- The per-commit topic/suppression logic of the Debian
`generate_patches` loop (`pq.py:78-89`): parse and strip the old-style
topic, parse the structured `gbp` and `gbp-pq` commands (the `gbp-pq`
family overriding the `gbp` one, `pq.py:80-82`), suppress the commit if
an `ignore` command is present, and otherwise let a structured `topic`
command take precedence over the old-style topic.  Returns `none` when
the commit is suppressed, else the chosen topic and the commit info
retained for the patch. -/
def debian_commit_topic (info : DCommitInfo) : Option (Str × DCommitInfo) :=
  let p := parse_old_style_topic info
  let cmds := dictUpdate
    (parse_gbp_commands p.2 (str "gbp") [str "ignore"] [str "topic"])
    (parse_gbp_commands p.2 (str "gbp-pq") [str "ignore"] [str "topic"])
  if (cmds.lookup (str "ignore")).isSome then
    none
  else
    match cmds.lookup (str "topic") with
    | some t => some (t, p.2)
    | none => some (p.1, p.2)

/-! ## RPM exporter (`gbp/scripts/pq_rpm.py`) -/

/-- Commit information as consumed by the RPM exporter
(`repo.get_commit_info`, produced by the external git backend): id,
subject, body lines, and the backend-sanitized patch name derived from
the subject (`commit_info['patchname']`). -/
structure RCommitInfo where
  id : Str
  subject : Str
  body : List Str
  patchname : Str

/-- Apply an optional regex (modelled as the predicate "does `re.match`
succeed on this string"); Python treats `None` as no match. -/
def matchesOpt (re : Option (Str → Bool)) (s : Str) : Bool :=
  match re with
  | some p => p s
  | none => false

/-- Python `"%04d" % n`: decimal digits, zero-padded on the left to at
least four characters. -/
def fmt04 (n : Nat) : Str :=
  let digits := Nat.toDigits 10 n
  List.replicate (4 - digits.length) '0' ++ digits

/-- The body-line loop of `patch_fn_filter` (`pq_rpm.py:96-106`): a line
matching the ignore regex suppresses the commit (`.ok true`); otherwise,
if a topic regex is given and matches, the source evaluates
`match.group['topic']` — subscripting the bound method `group`, which
raises `TypeError` (`pq_rpm.py:105-106`). -/
def patch_fn_scan (ignoreRe topicRe : Option (Str → Bool)) :
    List Str → Except PyErr Bool
  | [] => .ok false
  | line :: rest =>
    if matchesOpt ignoreRe line then .ok true
    else if matchesOpt topicRe line then .error .typeErr
    else patch_fn_scan ignoreRe topicRe rest

/-- `patch_fn_filter(commit_info, patch_number, ignore_regex,
topic_regex)` (`pq_rpm.py:83-116`): `none` when the commit is to be
ignored (subject or a body line matches the ignore regex), otherwise the
patch filename: the optional `%04d-` sequence number plus the sanitized
subject, truncated to `64 - len(".patch")` characters before the
`.patch` suffix is appended.  (The topic prefix is always empty in a
successful run: a matching topic line raises, and no call site passes a
topic regex.) -/
def patch_fn_filter (info : RCommitInfo) (patch_number : Option Nat)
    (ignoreRe topicRe : Option (Str → Bool)) : Except PyErr (Option Str) :=
  let suffix := str ".patch"
  if matchesOpt ignoreRe info.subject then .ok none
  else
    match patch_fn_scan ignoreRe topicRe info.body with
    | .error e => .error e
    | .ok true => .ok none
    | .ok false =>
      let topic : Str := []
      let filename0 := topic ++
        (match patch_number with
         | some n => fmt04 n ++ str "-"
         | none => []) ++ info.patchname
      let filename := filename0.take (64 - suffix.length)
      .ok (some (filename ++ suffix))

/-- `os.path.join(dir, file)`. -/
def pjoin (d f : Str) : Str := d ++ str "/" ++ f

/-- `os.path.basename`: the segment after the last slash. -/
def basename (p : Str) : Str :=
  (p.reverse.takeWhile (fun c => c ≠ '/')).reverse

/-- The external RPM git backend (`RpmGitRepository`; the methods used by
`generate_patches` are inherited from the out-of-tree `GitRepository`).
`revParse0 x` stands for `repo.rev_parse("%s^0" % x)` (`none` = raises
`GitRepositoryError`); `shortId` for `repo.rev_parse(sha, short=7)`;
`commitsIn start end` for `repo.get_commits(start, end)` (newest first,
as git returns them); `formatPatch commit path` for
`repo.format_patch(commit, path, ...)` (`none` when the commit yields no
patch file); `fileSize` for `os.path.getsize`. -/
structure RRepo where
  hasTreeish : Str → Bool
  revParse0 : Str → Option Str
  shortId : Str → Str
  mergeBase : Str → Str → Option Str
  commitsIn : Str → Str → List Str
  commitInfo : Str → RCommitInfo
  diff : Str → Str → Str
  formatPatch : Str → Str → Option Str
  fileSize : Str → Nat

/-- The RPM exporter options read by `generate_patches` and
`update_patch_series`. -/
structure ROptions where
  patch_numbers : Bool
  patch_export_ignore_regex : Option (Str → Bool)
  patch_export_compress : Nat
  patch_export_squash_until : Str

/-- `write_diff_file(repo, diff_filename, start, end)`
(`pq_rpm.py:59-74`): the diff between the two tree-ishes is written to
`diff_filename` and the name returned, unless the diff is empty, in
which case no file is produced and `None` is returned.  (The file write
itself is abstracted to the returned name.) -/
def write_diff_file (repo : RRepo) (diff_filename start end_ : Str) :
    Option Str :=
  if repo.diff start end_ ≠ [] then some diff_filename else none

/-- Python 2 membership test on the *iterator* `rev_list`
(`pq_rpm.py:143,148`): `x in it` consumes the iterator up to and
including the first occurrence of `x`; the subsequent `for` loop then
sees exactly the elements after it.  Returns those remaining elements,
or `none` when `x` does not occur (iterator exhausted). -/
def dropThrough (l : List Str) (x : Str) : Option (List Str) :=
  match l with
  | [] => none
  | a :: t => if a = x then some t else dropThrough t x

/-- The squash block of `generate_patches` (`pq_rpm.py:144-166`): when a
squash point is configured and differs from the baseline, it must occur
in the (oldest-first) commit list; the flat diff file for
baseline..squash-point is emitted (named `<name>.diff` if an explicit
name was given, else `<short-start>-to-<short-squash>.diff`) unless the
diff is empty; the commits consumed by the membership test — those up to
and including the squash point — are no longer in the iterator.  Returns
the initial patch list and the remaining commits. -/
def squash_stage (repo : RRepo) (outdir start_sha1 squash_point
    squash_diff_name : Str) (rev_list : List Str) :
    Except PyErr (List Str × List Str) :=
  if squash_point ≠ [] then
    match repo.revParse0 squash_point with
    | none => .error .gitRepoError
    | some squash_sha1 =>
      if start_sha1 ≠ squash_sha1 then
        match dropThrough rev_list squash_sha1 with
        | none => .error .gbpError
        | some rest =>
          let squash_s := repo.shortId squash_sha1
          let start_s := repo.shortId start_sha1
          let diff_filename :=
            if squash_diff_name ≠ [] then squash_diff_name ++ str ".diff"
            else start_s ++ str "-to-" ++ squash_s ++ str ".diff"
          match write_diff_file repo (pjoin outdir diff_filename)
              start_s squash_s with
          | some p => .ok ([p], rest)
          | none => .ok ([], rest)
      else
        .ok ([], rev_list)
  else
    .ok ([], rev_list)

/-- The per-commit loop of `generate_patches` (`pq_rpm.py:169-182`):
each commit passing `patch_fn_filter` is formatted into a patch file
(appended when `format_patch` produces one) and — only then — the
sequence number advances when numbering is enabled; an ignored commit
produces nothing and leaves the counter unchanged. -/
def rpatch_loop (repo : RRepo) (opts : ROptions) (outdir : Str) :
    List Str → Option Nat → List Str → Except PyErr (List Str)
  | [], _, acc => .ok acc
  | c :: rest, num, acc =>
    let info := repo.commitInfo c
    match patch_fn_filter info num opts.patch_export_ignore_regex none with
    | .error e => .error e
    | .ok none => rpatch_loop repo opts outdir rest num acc
    | .ok (some fn) =>
      let acc' :=
        match repo.formatPatch c (pjoin outdir fn) with
        | some p => acc ++ [p]
        | none => acc
      rpatch_loop repo opts outdir rest
        (if opts.patch_numbers then num.map (fun k => k + 1) else num) acc'

/-- `compress_patches(patches, compress_size)` (`pq_rpm.py:42-56`): a
patch file larger than the non-zero threshold is gzipped (its name
gaining `.gz`); the returned names are basenames. -/
def compress_patches (sizeOf : Str → Nat) (patches : List Str)
    (compress_size : Nat) : List Str :=
  patches.map (fun p =>
    if compress_size ≠ 0 ∧ sizeOf p > compress_size then
      basename (p ++ str ".gz")
    else basename p)

/-- `generate_patches(repo, start, squash_point, end, squash_diff_name,
outdir, options)` (`pq_rpm.py:119-196`): validate the tree-ishes,
resolve the endpoints (a non-commit end falls back to `HEAD` as the last
commit), require the baseline to be an ancestor of the end, run the
squash block, generate per-commit patches over the remaining commits
(numbering from 1 when enabled), emit the trailing tree-ish diff when the
end was not a commit, and compress. -/
def generate_patches_rpm (repo : RRepo) (start squash_point end_
    squash_diff_name outdir : Str) (opts : ROptions) :
    Except PyErr (List Str) :=
  if ¬ (repo.hasTreeish start ∧ repo.hasTreeish end_) then .error .gbpError
  else
    match repo.revParse0 start with
    | none => .error .gitRepoError
    | some start_sha1 =>
      let ec : Str × Option Str :=
        match repo.revParse0 end_ with
        | some s => (end_, some s)
        | none => (str "HEAD", repo.revParse0 (str "HEAD"))
      match ec.2 with
      | none => .error .gitRepoError
      | some end_commit_sha1 =>
        let end_commit := ec.1
        if repo.mergeBase start_sha1 end_commit_sha1 ≠ some start_sha1 then
          .error .gbpError
        else
          let rev_list := (repo.commitsIn start end_commit).reverse
          match squash_stage repo outdir start_sha1 squash_point
              squash_diff_name rev_list with
          | .error e => .error e
          | .ok (patches0, remaining) =>
            let num0 : Option Nat := if opts.patch_numbers then some 1 else none
            match rpatch_loop repo opts outdir remaining num0 patches0 with
            | .error e => .error e
            | .ok patches1 =>
              let patches2 :=
                if end_commit ≠ end_ then
                  match write_diff_file repo
                      (pjoin outdir (end_ ++ str ".diff")) end_commit end_ with
                  | some p => patches1 ++ [p]
                  | none => patches1
                else patches1
              .ok (compress_patches repo.fileSize patches2
                opts.patch_export_compress)

/-- A commit is suppressed by the export ignore pattern when its subject
or any body line matches (`patch_fn_filter`, `pq_rpm.py:91-100`). -/
def isSuppressed (repo : RRepo) (opts : ROptions) (c : Str) : Bool :=
  let info := repo.commitInfo c
  matchesOpt opts.patch_export_ignore_regex info.subject
    || info.body.any (fun x => matchesOpt opts.patch_export_ignore_regex x)

/-- Spec-side numbering (refinement target for claim C6; this definition
follows the spec's words, §4.5 step 5): over the non-suppressed commits,
the k-th one (counting from the given start) receives sequence number k
in its patch filename; numbers are consecutive. -/
def numbering_spec (repo : RRepo) (outdir : Str) :
    List Str → Nat → List Str → List Str
  | [], _, acc => acc
  | c :: rest, k, acc =>
    let info := repo.commitInfo c
    let fn := ((fmt04 k ++ str "-") ++ info.patchname).take 58 ++ str ".patch"
    let acc' :=
      match repo.formatPatch c (pjoin outdir fn) with
      | some p => acc ++ [p]
      | none => acc
    numbering_spec repo outdir rest (k + 1) acc'

/-- The name of the squash diff file (`pq_rpm.py:156-159`): the explicit
name plus `.diff` when one is configured, else
`<short-baseline>-to-<short-squash>.diff`. -/
def squashDiffName (repo : RRepo) (ssha qsha name : Str) : Str :=
  if name ≠ [] then name ++ str ".diff"
  else repo.shortId ssha ++ str "-to-" ++ repo.shortId qsha ++ str ".diff"

/-- The flat-diff contribution of the squash block: one file when the
diff of baseline..squash-point is non-empty, none otherwise
(`write_diff_file`, `pq_rpm.py:164-165`). -/
def squashDiffPart (repo : RRepo) (outdir ssha qsha name : Str) : List Str :=
  if repo.diff (repo.shortId ssha) (repo.shortId qsha) ≠ [] then
    [pjoin outdir (squashDiffName repo ssha qsha name)]
  else []

/-- Number of `.diff`-suffixed files in a patch list. -/
def diff_file_count (ps : List Str) : Nat :=
  (ps.filter (fun p => (str ".diff").isSuffixOf p)).length

/-- A backend for the C4 witness: three commits `c1,c2,c3` above the
baseline, every name resolving to itself, non-empty diffs, every commit
formatting into a patch file. -/
def w4_repo : RRepo :=
  ⟨fun _ => true, fun x => some x, fun x => x.take 7, fun a _ => some a,
   fun _ _ => [str "c3", str "c2", str "c1"],
   fun c => ⟨c, c, [], c⟩, fun _ _ => str "x",
   fun _ p => some p, fun _ => 0⟩

/-- The C4 counterexample backend: as `w4_repo` but every diff is empty
(e.g. the squashed commits cancel each other, leaving identical
trees). -/
def ce4_repo : RRepo :=
  ⟨fun _ => true, fun x => some x, fun x => x.take 7, fun a _ => some a,
   fun _ _ => [str "c3", str "c2", str "c1"],
   fun c => ⟨c, c, [], c⟩, fun _ _ => [],
   fun _ p => some p, fun _ => 0⟩

/-- Options for the C4 witness and counterexample: numbering on, no
ignore pattern, no compression. -/
def w4_opts : ROptions := ⟨true, none, 0, str "c2"⟩

/-- A backend for the C6 witness. -/
def w6_repo : RRepo :=
  ⟨fun _ => true, fun x => some x, fun x => x.take 7, fun a _ => some a,
   fun _ _ => [str "keep", str "skipme"],
   fun c => ⟨c, c, [], c⟩, fun _ _ => str "x",
   fun _ p => some p, fun _ => 0⟩

/-- Options for the C6 witness: numbering on, ignore pattern matching
the subject `skipme`. -/
def w6_opts : ROptions :=
  ⟨true, some (fun s => decide (s = str "skipme")), 0, []⟩

/-! ## RPM `update_patch_series` (`pq_rpm.py:199-227`) and the spec file
(`gbp/rpm/__init__.py`) -/

/-- One patch entry of a parsed spec file
(`gbp/rpm/__init__.py:233,272`): filename, strip level, whether a
`%patch` macro applies it, and whether it sits inside the gbp autoupdate
markers (engine-managed). -/
structure SpecPatchEntry where
  filename : Str
  strip : Str
  apply : Bool
  autoupdate : Bool
deriving DecidableEq, Repr

/-- The slice of a `SpecFile` that `update_patch_series` reads: the
directory holding the spec and patches, and the numbered patch
entries. -/
structure SpecModel where
  specdir : Str
  patches : List (Nat × SpecPatchEntry)
deriving DecidableEq, Repr

/-- The packaging directory as a path → content map; `os.unlink` with
`ENOENT` tolerated (`pq_rpm.py:214-220`) is removal-if-present. -/
def fsDelete (fs : List (Str × Str)) (p : Str) : List (Str × Str) :=
  fs.filter (fun e => e.1 ≠ p)

/-- Writing a file: replaces any existing entry at that path. -/
def fsWrite (fs : List (Str × Str)) (p c : Str) : List (Str × Str) :=
  fs.filter (fun e => e.1 ≠ p) ++ [(p, c)]

/-- The deletion loop of `update_patch_series` (`pq_rpm.py:209-220`):
remove from the packaging dir the file of every patch entry flagged
`autoupdate`. -/
def remove_old_patches (spec : SpecModel) (fs : List (Str × Str)) :
    List (Str × Str) :=
  spec.patches.foldl
    (fun acc np =>
      if np.2.autoupdate then fsDelete acc (pjoin spec.specdir np.2.filename)
      else acc)
    fs

/-- `s.split(':', 1)` as used at `pq_rpm.py:205-207`: the squash point
is everything before the first colon, the explicit diff name everything
after it (empty when there is no colon). -/
def splitColon1 (s : Str) : Str × Str :=
  (s.takeWhile (fun c => c ≠ ':'), (s.dropWhile (fun c => c ≠ ':')).drop 1)

/-- The net files created by a successful `generate_patches` run: each
returned basename exists in the spec directory, with the content the
backend formatted for it (`cnt`). -/
def writePatchFiles (specdir : Str) (cnt : Str → Str) (names : List Str)
    (fs : List (Str × Str)) : List (Str × Str) :=
  names.foldl (fun acc n => fsWrite acc (pjoin specdir n) (cnt n)) fs

/-- `update_patch_series(repo, spec, start, end, options)`
(`pq_rpm.py:199-227`): split the squash option, delete the
engine-managed patches from the packaging dir, generate the new patch
set there, then call `spec.update_patches(filenames)` — an attribute
`SpecFile` does not have (the method is `updatepatches`,
`gbp/rpm/__init__.py:356`), so the step raises `AttributeError` after
the files are written and `spec.write_spec_file()` never runs.  Returns
the outcome, the resulting packaging-dir contents, and the generated
patch names. -/
def update_patch_series (repo : RRepo) (spec : SpecModel)
    (start end_ : Str) (opts : ROptions) (cnt : Str → Str)
    (fs : List (Str × Str)) :
    Except PyErr Unit × List (Str × Str) × List Str :=
  let squash := splitColon1 opts.patch_export_squash_until
  let fs1 := remove_old_patches spec fs
  match generate_patches_rpm repo start squash.1 end_ squash.2
      spec.specdir opts with
  | .error e => (.error e, fs1, [])
  | .ok patches =>
    let fs2 := writePatchFiles spec.specdir cnt patches fs1
    (.error .attrErr, fs2, patches)

/-- The C8 concrete backend: one commit `c3` over the baseline,
formatting into `0001-c3.patch`. -/
def c8_repo : RRepo :=
  ⟨fun _ => true, fun x => some x, fun x => x.take 7, fun a _ => some a,
   fun _ _ => [str "c3"],
   fun c => ⟨c, c, [], c⟩, fun _ _ => str "x",
   fun _ p => some p, fun _ => 0⟩

/-- C8 options: numbering on, no ignore pattern, no compression, no
squashing. -/
def c8_opts : ROptions := ⟨true, none, 0, []⟩

/-- C8 counterexample spec: a single hand-maintained (non-autoupdate)
patch entry whose filename collides with the name the export will
generate. -/
def c8_spec : SpecModel :=
  ⟨str "pkg", [(1, ⟨str "0001-c3.patch", str "0", true, false⟩)]⟩

/-- C8 witness spec: one engine-managed entry and one hand-maintained
entry whose name does not collide with the generated set. -/
def c8w_spec : SpecModel :=
  ⟨str "pkg", [(1, ⟨str "old.patch", str "0", true, true⟩),
               (2, ⟨str "keep.patch", str "0", true, false⟩)]⟩

/-- Backend-formatted content of generated patch files for the C8
scenarios. -/
def c8_cnt : Str → Str := fun _ => str "generated"

/-- C8 counterexample packaging dir: the hand-maintained file that the
export will overwrite. -/
def c8_fs0 : List (Str × Str) :=
  [(pjoin (str "pkg") (str "0001-c3.patch"), str "hand")]

/-- C8 witness packaging dir: an engine-managed file and a
hand-maintained one. -/
def c8w_fs : List (Str × Str) :=
  [(pjoin (str "pkg") (str "old.patch"), str "old"),
   (pjoin (str "pkg") (str "keep.patch"), str "hand")]

/-! ## The Debian exporter and importer (`gbp/scripts/pq.py`)

The Debian option parser defines neither `pq_branch` nor
`packaging_branch`, so the branch-naming helpers always run with
`DEFAULT_PQ_BRANCH_NAME` (`hasattr(options, "pq_branch")` is false).
The maintainer lookup and every patch application go through the calls
settled as claim C3; here the engine's control flow is modelled with
those queries abstracted into the backend. -/

/-- The state of the working tree and repository the Debian script
mutates: the checked-out branch, the branch list, the contents of
`debian/patches/` and its `series` file, whether this run committed, and
whether the import's staging tmpdir currently exists. -/
structure GState where
  current : Str
  branches : List Str
  patchDirFiles : List Str
  seriesFile : Option (List Str)
  committed : Bool
  tmpdirExists : Bool
deriving DecidableEq, Repr

/-- The Debian export backend: tree-ish validity, the commit range,
commit info, the backend-derived patch file name (the out-of-tree
`format_patch` names the file from the sanitized subject), and whether
the tree is clean at commit time. -/
structure DBackend where
  hasTreeish : Str → Bool
  commitsIn : Str → Str → List Str
  commitInfo : Str → DCommitInfo
  patchName : DCommitInfo → Str
  isClean : Bool

/-- The Debian exporter options used by `export_patches`. -/
structure DOptions where
  patch_numbers : Bool
  commit : Bool
  drop : Bool
deriving DecidableEq, Repr

/-- Modelled from the spec: `format_patch(outdir, repo, info, patches,
numbered, topic)` (imported at `pq.py:33-37` but defined nowhere in this
tree; §4.3 of the spec): produce the patch file for the single commit in
`outdir` — inside the topic subdirectory when a topic is set — and
append its path to the list. -/
def format_patch (outdir : Str) (be : DBackend) (info : DCommitInfo)
    (patches : List Str) (topic : Str) : List Str :=
  let sub := if topic ≠ [] then topic ++ str "/" else []
  patches ++ [outdir ++ sub ++ be.patchName info]

/-- The Debian `generate_patches(repo, start, end, outdir, options)`
(`pq.py:65-91`): validate both tree-ishes, then for each commit oldest
first run the topic/suppression logic of `debian_commit_topic` and
format the non-ignored ones. -/
def debian_generate_patches (be : DBackend) (start end_ outdir : Str) :
    Except PyErr (List Str) :=
  if ¬ (be.hasTreeish start ∧ be.hasTreeish end_) then .error .gbpError
  else
    .ok ((be.commitsIn start end_).reverse.foldl
      (fun acc c =>
        match debian_commit_topic (be.commitInfo c) with
        | none => acc
        | some (topic, info2) => format_patch outdir be info2 acc topic)
      [])

/-- `drop_pq(repo, branch, options)` (`common/pq.py:190-201`): refuse
when standing on a patch-queue branch; otherwise delete the pq branch if
it exists, no-op if not. -/
def drop_pq (branch : Str) (s : GState) : Except PyErr Unit × GState :=
  if is_pq_branch branch DEFAULT_PQ_BRANCH_NAME then (.error .gbpError, s)
  else
    match pq_branch_name branch DEFAULT_PQ_BRANCH_NAME with
    | none => (.ok (), s)
    | some pq =>
      if pq ∈ s.branches then (.ok (), { s with branches := s.branches.erase pq })
      else (.ok (), s)

/-- `commit_patches(repo, branch, patches, options)` (`pq.py:133-156`):
nothing happens on a clean tree; otherwise the patch dir is staged and
committed (the synthesized message — `compare_series` /
`format_series_diff` — only affects the commit text and is not modelled
here). -/
def commit_patches (be : DBackend) (s : GState) : GState :=
  if be.isClean then s else { s with committed := true }

/-- `export_patches(repo, branch, options)` (`pq.py:159-196`): switch
off a patch-queue branch to its base, derive the pq branch name, remove
`debian/patches/` (including the `series` file), generate the patches;
when any were produced write the series file and optionally commit,
otherwise only log; optionally drop the pq branch. -/
def export_patches (be : DBackend) (opts : DOptions) (s0 : GState) :
    Except PyErr Unit × GState :=
  let branchRes : Except PyErr (Str × GState) :=
    if is_pq_branch s0.current DEFAULT_PQ_BRANCH_NAME then
      match pq_branch_base s0.current DEFAULT_PQ_BRANCH_NAME (str "master") with
      | some base => .ok (base, { s0 with current := base })
      | none => .error .gitRepoError
    else .ok (s0.current, s0)
  match branchRes with
  | .error e => (.error e, s0)
  | .ok (branch, s1) =>
    match pq_branch_name branch DEFAULT_PQ_BRANCH_NAME with
    | none => (.error .gitRepoError, s1)
    | some pq_branch =>
      let s2 := { s1 with patchDirFiles := [], seriesFile := none }
      match debian_generate_patches be branch pq_branch
          (str "debian/patches/") with
      | .error e => (.error e, s2)
      | .ok patches =>
        let s3 :=
          if patches ≠ [] then
            let s4 := { s2 with
              patchDirFiles := patches
              seriesFile := some (patches.map
                (fun p => p.drop (str "debian/patches/").length)) }
            if opts.commit then commit_patches be s4 else s4
          else s2
        if opts.drop then drop_pq branch s3 else (.ok (), s3)

/-- The Debian import backend: the first-parent history of the work
branch (`repo.get_commits(num=tries, first_parent=True)` takes its
prefix) and whether a given patch applies on the queue built at a given
candidate baseline. -/
structure IBackend where
  firstParentHistory : List Str
  applies : Str → Patch → Bool

/-- The candidate loop of `import_quilt_patches` (`pq.py:263-289`): for
each candidate baseline create the pq branch there and apply the queue
in order; on the first failure hard-reset, switch back to the original
branch, delete the pq branch and try the next (older) candidate; when a
candidate takes every patch, stop there (on the pq branch).  When all
candidates are exhausted the `for`'s `else` raises `GbpError` — *before*
the staging-dir cleanup at `pq.py:291-293`. -/
def import_try_loop (be : IBackend) (pq_branch branch : Str)
    (queue : List Patch) : List Str → GState → Except PyErr Unit × GState
  | [], s => (.error .gbpError, s)
  | c :: rest, s =>
    let s1 := { s with
      branches := s.branches ++ [pq_branch]
      current := pq_branch }
    match queue.find? (fun p => !be.applies c p) with
    | none => (.ok (), s1)
    | some _ =>
      let s2 := { s1 with
        current := branch
        branches := s1.branches.erase pq_branch }
      import_try_loop be pq_branch branch queue rest s2

/-- Post-loop staging cleanup (`pq.py:291-293`): reached only on the
success path; removes the tmpdir when one was created. -/
def import_finish (created : Bool) :
    Except PyErr Unit × GState → Except PyErr Unit × GState
  | (.ok (), s) => (.ok (), if created then { s with tmpdirExists := false } else s)
  | (.error e, s) => (.error e, s)

/-- `import_quilt_patches(repo, branch, series, tries, options)`
(`pq.py:222-293`): refuse on a pq branch unless forced (then work on its
base), refuse when the pq branch exists unless forced (then drop it),
take up to `tries` first-parent candidates, stage the patches in a
tmpdir when more than one candidate will be tried, and run the candidate
loop; the tmpdir is removed only on the success path.  The series read
and the maintainer lookup (whose call raises `TypeError`, settled as
claim C3) are abstracted: `queue` is the in-memory patch list. -/
def import_quilt_patches (be : IBackend) (force : Bool) (tries : Nat)
    (queue : List Patch) (s0 : GState) : Except PyErr Unit × GState :=
  let branchRes : Except PyErr (Str × GState) :=
    if is_pq_branch s0.current DEFAULT_PQ_BRANCH_NAME then
      if force then
        match pq_branch_base s0.current DEFAULT_PQ_BRANCH_NAME (str "master") with
        | some base => .ok (base, { s0 with current := base })
        | none => .error .gitRepoError
      else .error .gbpError
    else .ok (s0.current, s0)
  match branchRes with
  | .error e => (.error e, s0)
  | .ok (branch, s1) =>
    match pq_branch_name branch DEFAULT_PQ_BRANCH_NAME with
    | none => (.error .gitRepoError, s1)
    | some pq_branch =>
      if pq_branch ∈ s1.branches ∧ ¬ force then (.error .gbpError, s1)
      else
        let s2 := if pq_branch ∈ s1.branches then
            { s1 with branches := s1.branches.erase pq_branch }
          else s1
        let commits := be.firstParentHistory.take tries
        let created := decide (1 < commits.length)
        let s3 := if created then { s2 with tmpdirExists := true } else s2
        import_finish created (import_try_loop be pq_branch branch queue commits s3)

/-- Concrete backend for the C1 counterexample and witness: two
candidate baselines, every patch application failing. -/
def c1_be : IBackend := ⟨[str "U", str "U1"], fun _ _ => false⟩

/-- A one-patch queue for C1. -/
def c1_queue : List Patch :=
  [⟨str "a.patch", 1, none, str "s", str "d", str "A", str "a@b", []⟩]

/-- Initial state for C1: on `master`, no pq branch, no staging dir. -/
def c1_state : GState := ⟨str "master", [str "master"], [], none, false, false⟩

/-- Concrete backend for C7: the pq branch holds no commits over the
base. -/
def c7_be : DBackend :=
  ⟨fun _ => true, fun _ _ => [], fun c => ⟨c, []⟩, fun i => i.id, true⟩

/-- C7 options: commit on, drop off. -/
def c7_opts : DOptions := ⟨true, true, false⟩

/-- C7 initial state: a previous series file exists. -/
def c7_state : GState :=
  ⟨str "master", [str "master", str "patch-queue/master"],
   [str "debian/patches/old.patch"], some [str "old.patch"], false, false⟩

/-! ## Theorems -/

/-- C9 (corrected).  `apply_and_commit_patch` creates the commit and
updates the ref in two separate backend calls with no
expected-old-value guard: if the patch fails to apply, neither record is
made; if both backend calls succeed, the commit is created and `HEAD`
advanced to it; but if `update_ref` fails after `commit_tree`, the new
commit object persists while `HEAD` is unchanged — the partial state the
claim rules out. -/
theorem C9_apply_commit_atomicity (be : GitBackend) (s : GitState)
    (patch : Patch) (topic : Option Str) :
    (be.applyPatchOk patch.path patch.strip = false →
      apply_and_commit_patch be s patch topic = (.error .gbpError, s)) ∧
    (be.applyPatchOk patch.path patch.strip = true → be.updateRefOk = true →
      apply_and_commit_patch be s patch topic =
        (.ok (), { objects := s.objects ++ [(s.nextId, commit_msg patch topic)]
                   head := s.nextId
                   nextId := s.nextId + 1 })) ∧
    (be.applyPatchOk patch.path patch.strip = true → be.updateRefOk = false →
      apply_and_commit_patch be s patch topic =
        (.error .gitRepoError,
         { objects := s.objects ++ [(s.nextId, commit_msg patch topic)]
           head := s.head
           nextId := s.nextId + 1 })) := by
  refine ⟨fun h1 => ?_, fun h1 h2 => ?_, fun h1 h2 => ?_⟩
  · simp [apply_and_commit_patch, h1]
  · simp [apply_and_commit_patch, h1, h2]
  · simp [apply_and_commit_patch, h1, h2]

/-- Witness for C9: a concrete run in which both backend calls succeed
yields the commit and the advanced ref. -/
theorem C9_apply_commit_atomicity_witness :
    apply_and_commit_patch
      ⟨fun _ _ => true, true, none⟩
      ⟨[(0, [])], 0, 1⟩
      ⟨str "a.patch", 1, none, str "s", str "d", str "A", str "a@b", []⟩
      none
    = (.ok (), ⟨[(0, []), (1, commit_msg ⟨str "a.patch", 1, none, str "s",
        str "d", str "A", str "a@b", []⟩ none)], 1, 2⟩) :=
  ((C9_apply_commit_atomicity ⟨fun _ _ => true, true, none⟩ ⟨[(0, [])], 0, 1⟩
      ⟨str "a.patch", 1, none, str "s", str "d", str "A", str "a@b", []⟩
      none).2.1) rfl rfl

/-- C9, counterexample to the claim as stated: with a backend whose
`update_ref` fails, applying a patch leaves the new commit object in the
store while `HEAD` still points at the old commit — a partial state, so
the outcome is not atomic. -/
theorem C9_apply_commit_atomicity_counterexample :
    ¬ atomicOutcome ce9_state
        (apply_and_commit_patch ce9_backend ce9_state ce9_patch none).2 := by
  have hs : (apply_and_commit_patch ce9_backend ce9_state ce9_patch none).2 =
      ⟨[(0, []), (1, commit_msg ce9_patch none)], 0, 2⟩ := by
    simp [apply_and_commit_patch, ce9_backend, ce9_state, ce9_patch]
  rw [hs]
  rintro (⟨c, m, hmem, hfresh, hhead⟩ | ⟨hobj, hh⟩)
  · have hc0 : c = 0 := by simpa using hhead.symm
    exact hfresh [] (by simp [ce9_state, hc0])
  · simp [ce9_state] at hobj

/-- C3 (confirmed).  Loading `gbp.scripts.pq` fails: it imports
`parse_gbp_commands` and `format_patch` from `gbp.scripts.common.pq`,
which binds neither; and, independently, the calls
`apply_and_commit_patch(repo, patch, maintainer, patch.topic)` and
`get_maintainer_from_control(repo)` pass more positional arguments than
the definitions `apply_and_commit_patch(repo, patch, topic=None)` and
`get_maintainer_from_control()` accept, so each such call raises
`TypeError`. -/
theorem C3_debian_pq_unrunnable :
    str "parse_gbp_commands" ∈ debianPqImportList ∧
    str "format_patch" ∈ debianPqImportList ∧
    str "parse_gbp_commands" ∉ commonPqBindings ∧
    str "format_patch" ∉ commonPqBindings ∧
    fromImportOk commonPqBindings debianPqImportList = false ∧
    bindsPositional sig_apply_and_commit_patch nargs_apply_and_commit_call
      = false ∧
    bindsPositional sig_get_maintainer_from_control nargs_get_maintainer_call
      = false := by decide

/-- C5 (corrected).  For every pattern with the `%(branch)s` placeholder and
every non-empty, whitespace-free branch name that is *not* itself a
patch-queue branch under that pattern,
`pq_branch_base (pq_branch_name branch pattern) pattern fallback = branch`.
(The claim fails without the last restriction: for a branch that already
matches the pattern, `pq_branch_name` returns `None`.) -/
theorem C5_branch_roundtrip (pre suf branch fallback : Str)
    (hne : branch ≠ [])
    (hsp : branch.all (fun c => !isPySpace c) = true)
    (hpq : is_pq_branch branch (.withVar pre suf) = false) :
    pq_roundtrip branch (.withVar pre suf) fallback = some branch := by
  have hname : pq_branch_name branch (.withVar pre suf) =
      some (pre ++ branch ++ suf) := by
    simp [pq_branch_name, hpq, substBranch]
  have hdrop : ((pre ++ branch ++ suf).drop pre.length) = branch ++ suf := by
    rw [List.append_assoc, List.drop_left]
  have hlen : (pre ++ branch ++ suf).length - pre.length - suf.length
      = branch.length := by
    simp [List.length_append]
  have hmid : ((pre ++ branch ++ suf).drop pre.length).take
      ((pre ++ branch ++ suf).length - pre.length - suf.length) = branch := by
    rw [hdrop, hlen, List.take_left]
  unfold pq_roundtrip
  rw [hname]
  show pq_branch_base (pre ++ branch ++ suf) (.withVar pre suf) fallback = some branch
  simp only [pq_branch_base, matchBase]
  rw [hmid]
  simp [List.append_assoc, hne, hsp]

/-- Witness for C5: the round trip at branch `foo` with the default
pattern `patch-queue/%(branch)s`. -/
theorem C5_branch_roundtrip_witness :
    str "foo" ≠ [] ∧
    (str "foo").all (fun c => !isPySpace c) = true ∧
    is_pq_branch (str "foo") (.withVar (str "patch-queue/") []) = false ∧
    pq_roundtrip (str "foo") (.withVar (str "patch-queue/") []) (str "master")
      = some (str "foo") :=
  ⟨by decide, by decide, by decide,
   C5_branch_roundtrip (str "patch-queue/") [] (str "foo") (str "master")
     (by decide) (by decide) (by decide)⟩

/-- C5, counterexample to the claim as stated: for the branch name
`patch-queue/foo` (which is itself a patch-queue branch) under the default
pattern, `pq_branch_name` returns `None`, so the round trip does not give
back the branch. -/
theorem C5_branch_roundtrip_counterexample :
    pq_roundtrip (str "patch-queue/foo") DEFAULT_PQ_BRANCH_NAME (str "master")
      ≠ some (str "patch-queue/foo") := by decide


/-- Scanning body lines that carry no old-style topic neither changes the
topic accumulator nor drops any line. -/
theorem old_style_loop_append_neutral (l1 rest : List Str) (topic : Str)
    (kept : List Str)
    (h : ∀ line ∈ l1, old_style_topic_match line = none) :
    old_style_loop (l1 ++ rest) topic kept
      = old_style_loop rest topic (kept ++ l1) := by
  induction l1 generalizing kept with
  | nil => simp
  | cons l t ih =>
    have hl := h l (by simp)
    rw [List.cons_append, old_style_loop, hl]
    rw [ih (kept ++ [l]) (fun x hx => h x (by simp [hx]))]
    simp

/-- A body with no old-style topic line yields the accumulated topic and
keeps every line. -/
theorem old_style_loop_neutral (lines : List Str) (topic : Str)
    (kept : List Str)
    (h : ∀ line ∈ lines, old_style_topic_match line = none) :
    old_style_loop lines topic kept = (topic, kept ++ lines) := by
  have := old_style_loop_append_neutral lines [] topic kept h
  simpa [old_style_loop] using this

/-- Folding the command parser over lines that match no command leaves
the accumulated mapping unchanged. -/
theorem gbp_fold_append_neutral (tag : Str) (n a : List Str)
    (l1 rest : List Str) (acc : List (Str × Str))
    (h : ∀ line ∈ l1, gbp_command_match tag line = none) :
    (l1 ++ rest).foldl (gbp_command_step tag n a) acc
      = rest.foldl (gbp_command_step tag n a) acc := by
  induction l1 generalizing acc with
  | nil => simp
  | cons l t ih =>
    have hl := h l (by simp)
    rw [List.cons_append, List.foldl_cons]
    rw [show gbp_command_step tag n a acc l = acc by
      simp [gbp_command_step, hl]]
    exact ih acc (fun x hx => h x (by simp [hx]))

/-- C2 (confirmed; `parse_gbp_commands` modelled from the spec, see its
definition).  For every commit exported to a patch: a legacy
`gbp-pq-topic:` body line sets the patch topic and is removed from the
body retained for the patch; a structured `Gbp: Topic <value>` trailer
sets the topic; and when both are present in one commit the structured
form determines the topic (the legacy line is still stripped).  The
quantified lines `tline`/`sline` are an arbitrary legacy topic line and
an arbitrary structured topic trailer, characterized by the recognizers;
the other body lines are arbitrary non-command lines. -/
theorem C2_topic_syntaxes (id : Str) (l1 l2 : List Str) (tline sline a b : Str)
    (hneutral : ∀ line ∈ l1 ++ l2,
      old_style_topic_match line = none ∧
      gbp_command_match (str "gbp") line = none ∧
      gbp_command_match (str "gbp-pq") line = none)
    (hta : old_style_topic_match tline = some a)
    (hsb : gbp_command_match (str "gbp") sline = some (str "topic", b))
    (hsb2 : old_style_topic_match sline = none)
    (hsb3 : gbp_command_match (str "gbp-pq") sline = none) :
    debian_commit_topic ⟨id, l1 ++ tline :: l2⟩ = some (a, ⟨id, l1 ++ l2⟩) ∧
    debian_commit_topic ⟨id, l1 ++ sline :: l2⟩
      = some (b, ⟨id, l1 ++ sline :: l2⟩) ∧
    debian_commit_topic ⟨id, l1 ++ tline :: sline :: l2⟩
      = some (b, ⟨id, l1 ++ sline :: l2⟩) := by
  have hno1 : ∀ line ∈ l1, old_style_topic_match line = none :=
    fun x hx => (hneutral x (by simp [hx])).1
  have hno2 : ∀ line ∈ l2, old_style_topic_match line = none :=
    fun x hx => (hneutral x (by simp [hx])).1
  have hng1 : ∀ line ∈ l1, gbp_command_match (str "gbp") line = none :=
    fun x hx => (hneutral x (by simp [hx])).2.1
  have hng2 : ∀ line ∈ l2, gbp_command_match (str "gbp") line = none :=
    fun x hx => (hneutral x (by simp [hx])).2.1
  have hnq1 : ∀ line ∈ l1, gbp_command_match (str "gbp-pq") line = none :=
    fun x hx => (hneutral x (by simp [hx])).2.2
  have hnq2 : ∀ line ∈ l2, gbp_command_match (str "gbp-pq") line = none :=
    fun x hx => (hneutral x (by simp [hx])).2.2
  have hfold0 : ∀ tag : Str, (∀ line ∈ l1, gbp_command_match tag line = none) →
      (∀ line ∈ l2, gbp_command_match tag line = none) →
      parse_gbp_commands ⟨id, l1 ++ l2⟩ tag [str "ignore"] [str "topic"]
        = [] := by
    intro tag h1 h2
    unfold parse_gbp_commands
    show (l1 ++ l2).foldl _ [] = []
    rw [gbp_fold_append_neutral tag _ _ l1 l2 [] h1]
    have := gbp_fold_append_neutral tag [str "ignore"] [str "topic"] l2 [] [] h2
    simpa using this
  have hstep_s : gbp_command_step (str "gbp") [str "ignore"] [str "topic"]
      [] sline = [(str "topic", b)] := by
    simp [gbp_command_step, hsb, dictInsert]
  have hfold1 : parse_gbp_commands ⟨id, l1 ++ sline :: l2⟩ (str "gbp")
      [str "ignore"] [str "topic"] = [(str "topic", b)] := by
    unfold parse_gbp_commands
    show (l1 ++ sline :: l2).foldl _ [] = _
    rw [gbp_fold_append_neutral (str "gbp") _ _ l1 (sline :: l2) [] hng1]
    rw [List.foldl_cons, hstep_s]
    have := gbp_fold_append_neutral (str "gbp") [str "ignore"] [str "topic"]
      l2 [] [(str "topic", b)] hng2
    simpa using this
  have hfold2 : parse_gbp_commands ⟨id, l1 ++ sline :: l2⟩ (str "gbp-pq")
      [str "ignore"] [str "topic"] = [] := by
    unfold parse_gbp_commands
    show (l1 ++ sline :: l2).foldl _ [] = []
    rw [gbp_fold_append_neutral (str "gbp-pq") _ _ l1 (sline :: l2) [] hnq1]
    rw [List.foldl_cons,
      show gbp_command_step (str "gbp-pq") [str "ignore"] [str "topic"] [] sline
        = [] by simp [gbp_command_step, hsb3]]
    have := gbp_fold_append_neutral (str "gbp-pq") [str "ignore"] [str "topic"]
      l2 [] [] hnq2
    simpa using this
  refine ⟨?_, ?_, ?_⟩
  · have hp1 : parse_old_style_topic ⟨id, l1 ++ tline :: l2⟩
        = (a, ⟨id, l1 ++ l2⟩) := by
      unfold parse_old_style_topic
      have h1 : old_style_loop (l1 ++ tline :: l2) [] [] = (a, l1 ++ l2) := by
        rw [old_style_loop_append_neutral l1 (tline :: l2) [] [] hno1]
        simp only [List.nil_append]
        rw [show old_style_loop (tline :: l2) [] l1 = old_style_loop l2 a l1 by
          simp [old_style_loop, hta]]
        rw [old_style_loop_neutral l2 a l1 hno2]
      rw [h1]
    simp only [debian_commit_topic, hp1, hfold0 (str "gbp") hng1 hng2,
      hfold0 (str "gbp-pq") hnq1 hnq2]
    simp [dictUpdate, List.lookup]
  · have hp2 : parse_old_style_topic ⟨id, l1 ++ sline :: l2⟩
        = ([], ⟨id, l1 ++ sline :: l2⟩) := by
      unfold parse_old_style_topic
      have h1 : old_style_loop (l1 ++ sline :: l2) [] []
          = ([], l1 ++ sline :: l2) := by
        rw [old_style_loop_append_neutral l1 (sline :: l2) [] [] hno1]
        simp only [List.nil_append]
        rw [show old_style_loop (sline :: l2) [] l1
            = old_style_loop l2 [] (l1 ++ [sline]) by
          simp [old_style_loop, hsb2]]
        rw [old_style_loop_neutral l2 [] (l1 ++ [sline]) hno2]
        simp
      rw [h1]
    simp only [debian_commit_topic, hp2, hfold1, hfold2]
    have hlk1 : (List.lookup (str "ignore")
        (dictUpdate [(str "topic", b)] [])).isSome = false := by
      simp only [dictUpdate, List.foldl_nil, List.lookup]
      rw [show (str "ignore" == str "topic") = false from by decide]
      rfl
    have hlk2 : List.lookup (str "topic") (dictUpdate [(str "topic", b)] [])
        = some b := by
      simp only [dictUpdate, List.foldl_nil, List.lookup]
      rw [show (str "topic" == str "topic") = true from by decide]
    simp [hlk1, hlk2]
  · have hp3 : parse_old_style_topic ⟨id, l1 ++ tline :: sline :: l2⟩
        = (a, ⟨id, l1 ++ sline :: l2⟩) := by
      unfold parse_old_style_topic
      have h1 : old_style_loop (l1 ++ tline :: sline :: l2) [] []
          = (a, l1 ++ sline :: l2) := by
        rw [old_style_loop_append_neutral l1 (tline :: sline :: l2) [] [] hno1]
        simp only [List.nil_append]
        rw [show old_style_loop (tline :: sline :: l2) [] l1
            = old_style_loop l2 a (l1 ++ [sline]) by
          simp [old_style_loop, hta, hsb2]]
        rw [old_style_loop_neutral l2 a (l1 ++ [sline]) hno2]
        simp
      rw [h1]
    simp only [debian_commit_topic, hp3, hfold1, hfold2]
    have hlk1 : (List.lookup (str "ignore")
        (dictUpdate [(str "topic", b)] [])).isSome = false := by
      simp only [dictUpdate, List.foldl_nil, List.lookup]
      rw [show (str "ignore" == str "topic") = false from by decide]
      rfl
    have hlk2 : List.lookup (str "topic") (dictUpdate [(str "topic", b)] [])
        = some b := by
      simp only [dictUpdate, List.foldl_nil, List.lookup]
      rw [show (str "topic" == str "topic") = true from by decide]
    simp [hlk1, hlk2]

/-- Witness for C2: a concrete commit carrying both `gbp-pq-topic: oldtopic`
and `Gbp: Topic newtopic` exports with topic `newtopic`, the legacy line
stripped from the retained body. -/
theorem C2_topic_syntaxes_witness :
    old_style_topic_match (str "gbp-pq-topic: oldtopic")
      = some (str "oldtopic") ∧
    gbp_command_match (str "gbp") (str "Gbp: Topic newtopic")
      = some (str "topic", str "newtopic") ∧
    debian_commit_topic ⟨str "c1",
        [str "x"] ++ str "gbp-pq-topic: oldtopic" ::
          str "Gbp: Topic newtopic" :: [str "y"]⟩
      = some (str "newtopic", ⟨str "c1", [str "x"] ++ str "Gbp: Topic newtopic" :: [str "y"]⟩) :=
  ⟨by decide, by decide,
   (C2_topic_syntaxes (str "c1") [str "x"] [str "y"]
      (str "gbp-pq-topic: oldtopic") (str "Gbp: Topic newtopic")
      (str "oldtopic") (str "newtopic")
      (by decide) (by decide) (by decide) (by decide) (by decide)).2.2⟩

/-- `matchesOpt` of an absent regex never matches. -/
theorem matchesOpt_none (s : Str) : matchesOpt none s = false := rfl

/-- With no topic regex, the body scan of `patch_fn_filter` reports
exactly whether some body line matches the ignore regex. -/
theorem patch_fn_scan_none_topic (ignoreRe : Option (Str → Bool))
    (l : List Str) :
    patch_fn_scan ignoreRe none l
      = .ok (l.any (fun x => matchesOpt ignoreRe x)) := by
  induction l with
  | nil => simp [patch_fn_scan]
  | cons x t ih =>
    by_cases hx : matchesOpt ignoreRe x
    · simp [patch_fn_scan, hx]
    · simp [patch_fn_scan, hx, matchesOpt_none, ih, List.any_cons]

/-- Closed form of `patch_fn_filter` as called by the exporter (no topic
regex): `none` iff subject or a body line matches the ignore regex, else
the numbered, truncated filename. -/
theorem patch_fn_filter_eq (info : RCommitInfo) (num : Option Nat)
    (ignoreRe : Option (Str → Bool)) :
    patch_fn_filter info num ignoreRe none
      = .ok (if matchesOpt ignoreRe info.subject
              || info.body.any (fun x => matchesOpt ignoreRe x) then none
             else some (((match num with
                          | some n => fmt04 n ++ str "-"
                          | none => []) ++ info.patchname).take 58
               ++ str ".patch")) := by
  by_cases hs : matchesOpt ignoreRe info.subject
  · simp [patch_fn_filter, hs]
  · by_cases hb : info.body.any (fun x => matchesOpt ignoreRe x)
    · simp [patch_fn_filter, hs, patch_fn_scan_none_topic, hb]
    · simp [patch_fn_filter, hs, patch_fn_scan_none_topic, hb]
      rfl

/-- A suppressed commit contributes no patch and leaves the counter
untouched. -/
theorem rpatch_loop_skip_suppressed (repo : RRepo) (opts : ROptions)
    (outdir : Str) (c : Str) (rest : List Str) (num : Option Nat)
    (acc : List Str) (hsupp : isSuppressed repo opts c = true) :
    rpatch_loop repo opts outdir (c :: rest) num acc
      = rpatch_loop repo opts outdir rest num acc := by
  have h := patch_fn_filter_eq (repo.commitInfo c) num
    opts.patch_export_ignore_regex
  simp only [isSuppressed] at hsupp
  rw [rpatch_loop, h]
  simp [hsupp]

/-- With numbering enabled, the export loop refines the spec-side
numbering over exactly the non-suppressed commits. -/
theorem rpatch_loop_numbering (repo : RRepo) (opts : ROptions)
    (outdir : Str) (hnum : opts.patch_numbers = true) :
    ∀ (cs : List Str) (k : Nat) (acc : List Str),
    rpatch_loop repo opts outdir cs (some k) acc
      = .ok (numbering_spec repo outdir
          (cs.filter (fun c => !isSuppressed repo opts c)) k acc) := by
  intro cs
  induction cs with
  | nil => intro k acc; simp [rpatch_loop, numbering_spec]
  | cons c rest ih =>
    intro k acc
    have h := patch_fn_filter_eq (repo.commitInfo c) (some k)
      opts.patch_export_ignore_regex
    by_cases hsupp : isSuppressed repo opts c = true
    · have h2 : patch_fn_filter (repo.commitInfo c) (some k)
          opts.patch_export_ignore_regex none = .ok none := by
        rw [h]
        simp only [isSuppressed] at hsupp
        simp [hsupp]
      rw [rpatch_loop, h2]
      rw [ih k acc]
      simp [List.filter_cons, hsupp]
    · have hsupp' : isSuppressed repo opts c = false := by
        simpa using hsupp
      have h2 : patch_fn_filter (repo.commitInfo c) (some k)
          opts.patch_export_ignore_regex none
          = .ok (some (((fmt04 k ++ str "-")
              ++ (repo.commitInfo c).patchname).take 58 ++ str ".patch")) := by
        rw [h]
        simp only [isSuppressed] at hsupp'
        simp [hsupp']
      rw [rpatch_loop, h2]
      rw [List.filter_cons]
      simp only [hsupp', Bool.not_false, if_pos]
      rw [numbering_spec]
      simp only [hnum, if_true, Option.map_some']
      rw [ih (k + 1)]

/-- C6 (confirmed).  In the export loop: a commit whose subject or any
body line matches the configured ignore pattern produces no patch file
and does not advance the sequence counter (the loop on `c :: rest`
equals the loop on `rest` with the same counter); and with numbering
enabled the loop equals the spec-side numbering over exactly the
non-suppressed commits, numbered consecutively from the starting
number (`generate_patches` starts it at 1; the squash diff is appended
before the loop and never numbered). -/
theorem C6_ignore_numbering (repo : RRepo) (opts : ROptions) (outdir : Str) :
    (∀ (c : Str) (rest : List Str) (num : Option Nat) (acc : List Str),
      isSuppressed repo opts c = true →
      rpatch_loop repo opts outdir (c :: rest) num acc
        = rpatch_loop repo opts outdir rest num acc) ∧
    (opts.patch_numbers = true → ∀ (cs : List Str) (k : Nat) (acc : List Str),
      rpatch_loop repo opts outdir cs (some k) acc
        = .ok (numbering_spec repo outdir
            (cs.filter (fun c => !isSuppressed repo opts c)) k acc)) :=
  ⟨fun c rest num acc h =>
    rpatch_loop_skip_suppressed repo opts outdir c rest num acc h,
   fun hnum => rpatch_loop_numbering repo opts outdir hnum⟩

/-- Witness for C6: with subject `skipme` matching the ignore pattern,
the loop over `[skipme, keep]` equals the loop over `[keep]`, and the
surviving commit is numbered `0001`. -/
theorem C6_ignore_numbering_witness :
    isSuppressed w6_repo w6_opts (str "skipme") = true ∧
    rpatch_loop w6_repo w6_opts (str "out")
        (str "skipme" :: [str "keep"]) (some 1) []
      = rpatch_loop w6_repo w6_opts (str "out") [str "keep"] (some 1) [] ∧
    rpatch_loop w6_repo w6_opts (str "out")
        [str "skipme", str "keep"] (some 1) []
      = .ok [str "out/0001-keep.patch"] := by
  refine ⟨by decide, ?_, ?_⟩
  · exact (C6_ignore_numbering w6_repo w6_opts (str "out")).1
      (str "skipme") [str "keep"] (some 1) [] (by decide)
  · have h := (C6_ignore_numbering w6_repo w6_opts (str "out")).2
      (by decide) [str "skipme", str "keep"] 1 []
    exact h.trans (by decide)

/-- C10 (confirmed).  Every generated patch filename is the optional
four-digit zero-padded sequence number plus the backend-sanitized
subject, truncated so the length before the `.patch` extension (which
includes the topic prefix — always empty in a successful run, since a
topic-regex match raises and no call site passes one) is at most 64
characters (the code truncates to 58 = 64 - len(".patch")). -/
theorem C10_patch_filename (info : RCommitInfo) (num : Option Nat)
    (ignoreRe topicRe : Option (Str → Bool)) (fn : Str)
    (h : patch_fn_filter info num ignoreRe topicRe = .ok (some fn)) :
    ∃ stem, fn = stem ++ str ".patch" ∧ stem.length ≤ 64 ∧
      stem = ((match num with
               | some n => fmt04 n ++ str "-"
               | none => []) ++ info.patchname).take 58 := by
  have hlen : ∀ l : Str, (l.take 58).length ≤ 64 := by
    intro l
    have := List.length_take 58 l
    omega
  cases num with
  | none =>
    refine ⟨(([] : Str) ++ info.patchname).take 58, ?_, hlen _, rfl⟩
    unfold patch_fn_filter at h
    by_cases hs : matchesOpt ignoreRe info.subject
    · simp [hs] at h
    · simp only [hs, Bool.false_eq_true, if_false, if_neg] at h
      rcases hscan : patch_fn_scan ignoreRe topicRe info.body with e | b
      · rw [hscan] at h; simp at h
      · rw [hscan] at h
        cases b
        · simp at h
          rw [show (64 - (str ".patch").length) = 58 from by decide] at h
          exact h.symm
        · simp at h
  | some n =>
    refine ⟨((fmt04 n ++ str "-") ++ info.patchname).take 58, ?_, hlen _, rfl⟩
    unfold patch_fn_filter at h
    by_cases hs : matchesOpt ignoreRe info.subject
    · simp [hs] at h
    · simp only [hs, Bool.false_eq_true, if_false, if_neg] at h
      rcases hscan : patch_fn_scan ignoreRe topicRe info.body with e | b
      · rw [hscan] at h; simp at h
      · rw [hscan] at h
        cases b
        · simp at h
          rw [show (64 - (str ".patch").length) = 58 from by decide,
            ← List.append_assoc] at h
          exact h.symm
        · simp at h

/-- Witness for C10: a numbered commit with sanitized subject
`Fix-build` exports as `0001-Fix-build.patch`, whose stem obeys the
length budget. -/
theorem C10_patch_filename_witness :
    patch_fn_filter ⟨str "c", str "Fix build", [], str "Fix-build"⟩
        (some 1) none none = .ok (some (str "0001-Fix-build.patch")) ∧
    ∃ stem, str "0001-Fix-build.patch" = stem ++ str ".patch" ∧
      stem.length ≤ 64 ∧
      stem = ((fmt04 1 ++ str "-") ++ str "Fix-build").take 58 :=
  ⟨by decide,
   C10_patch_filename ⟨str "c", str "Fix build", [], str "Fix-build"⟩
     (some 1) none none (str "0001-Fix-build.patch") (by decide)⟩

/-- C4 (corrected).  With a squash point configured and distinct from the
baseline: if the squash point is not in the baseline-to-end history the
export fails; otherwise per-commit patches are generated exactly for the
commits strictly after the squash point (the membership test consumed the
iterator through it), preceded by *at most* one flat diff file — exactly
one when the diff baseline..squash-point is non-empty, none when it is
empty — named from the two shortened endpoint identifiers unless an
explicit name is given.  (The claim's "exactly one" fails for an empty
diff; see the counterexample.) -/
theorem C4_squash_export (repo : RRepo) (start squash end_ name outdir : Str)
    (opts : ROptions) (ssha esha qsha : Str) (rest : List Str)
    (h1 : repo.hasTreeish start = true) (h2 : repo.hasTreeish end_ = true)
    (h3 : repo.revParse0 start = some ssha)
    (h4 : repo.revParse0 end_ = some esha)
    (h5 : repo.mergeBase ssha esha = some ssha)
    (hsq : squash ≠ [])
    (h6 : repo.revParse0 squash = some qsha)
    (h7 : ssha ≠ qsha) :
    (dropThrough (repo.commitsIn start end_).reverse qsha = none →
      generate_patches_rpm repo start squash end_ name outdir opts
        = .error .gbpError) ∧
    (dropThrough (repo.commitsIn start end_).reverse qsha = some rest →
      (squashDiffPart repo outdir ssha qsha name).length ≤ 1 ∧
      ((squashDiffPart repo outdir ssha qsha name)
          = [pjoin outdir (squashDiffName repo ssha qsha name)] ↔
        repo.diff (repo.shortId ssha) (repo.shortId qsha) ≠ []) ∧
      generate_patches_rpm repo start squash end_ name outdir opts
        = (rpatch_loop repo opts outdir rest
            (if opts.patch_numbers then some 1 else none)
            (squashDiffPart repo outdir ssha qsha name)).map
            (fun l => compress_patches repo.fileSize l
              opts.patch_export_compress)) := by
  constructor
  · intro hdrop
    have hss : squash_stage repo outdir ssha squash name
        ((repo.commitsIn start end_).reverse) = .error .gbpError := by
      simp [squash_stage, hsq, h6, h7, hdrop]
    simp [generate_patches_rpm, h1, h2, h3, h4, h5, hss]
  · intro hdrop
    have hss : squash_stage repo outdir ssha squash name
        ((repo.commitsIn start end_).reverse)
        = .ok (squashDiffPart repo outdir ssha qsha name, rest) := by
      by_cases hd : repo.diff (repo.shortId ssha) (repo.shortId qsha) = []
      · simp [squash_stage, hsq, h6, h7, hdrop, write_diff_file, hd,
          squashDiffPart, squashDiffName]
      · simp [squash_stage, hsq, h6, h7, hdrop, write_diff_file, hd,
          squashDiffPart, squashDiffName]
    refine ⟨?_, ?_, ?_⟩
    · by_cases hd : repo.diff (repo.shortId ssha) (repo.shortId qsha) = [] <;>
        simp [squashDiffPart, hd]
    · by_cases hd : repo.diff (repo.shortId ssha) (repo.shortId qsha) = [] <;>
        simp [squashDiffPart, hd]
    · rcases hres : rpatch_loop repo opts outdir rest
          (if opts.patch_numbers then some 1 else none)
          (squashDiffPart repo outdir ssha qsha name) with e | l
      · simp [generate_patches_rpm, h1, h2, h3, h4, h5, hss, hres, Except.map]
      · simp [generate_patches_rpm, h1, h2, h3, h4, h5, hss, hres, Except.map]

/-- Witness for C4: squashing `U..c2` with a non-empty diff yields the
flat `U-to-c2.diff` followed by the single numbered patch of the one
commit after the squash point. -/
theorem C4_squash_export_witness :
    generate_patches_rpm w4_repo (str "U") (str "c2") (str "c3") []
        (str "out") w4_opts
      = .ok [str "U-to-c2.diff", str "0001-c3.patch"] := by
  have h := (C4_squash_export w4_repo (str "U") (str "c2") (str "c3") []
      (str "out") w4_opts (str "U") (str "c3") (str "c2") [str "c3"]
      (by decide) (by decide) (by decide) (by decide) (by decide)
      (by decide) (by decide) (by decide)).2 (by decide)
  rw [h.2.2]
  decide

/-- C4, counterexample to the claim as stated: with a valid squash point
distinct from the baseline but an empty baseline..squash-point diff
(identical trees), the export emits *no* flat diff file — not exactly
one. -/
theorem C4_squash_export_counterexample :
    generate_patches_rpm ce4_repo (str "U") (str "c2") (str "c3") []
        (str "out") w4_opts = .ok [str "0001-c3.patch"] ∧
    diff_file_count [str "0001-c3.patch"] = 0 := by
  constructor <;> decide


/-- `fsDelete` removes exactly the given path. -/
theorem lookup_fsDelete (fs : List (Str × Str)) (p q : Str) :
    List.lookup q (fsDelete fs p)
      = if q = p then none else List.lookup q fs := by
  induction fs with
  | nil => simp [fsDelete, List.lookup]
  | cons e t ih =>
    by_cases hep : e.1 = p
    · have : fsDelete (e :: t) p = fsDelete t p := by
        simp [fsDelete, hep]
      rw [this, ih]
      by_cases hqp : q = p
      · simp [hqp]
      · simp only [hqp, if_neg, if_false]
        have hqe : (q == e.1) = false := by
          have hne : q ≠ e.1 := fun h => hqp (h.trans hep)
          simpa using hne
        simp [List.lookup, hqe]
    · have : fsDelete (e :: t) p = e :: fsDelete t p := by
        simp [fsDelete, hep]
      rw [this]
      by_cases hqe : q = e.1
      · have hqp : ¬ q = p := fun h => hep (hqe.symm.trans h)
        simp [List.lookup, hqe, hqp, hep]
      · simp only [List.lookup, show (q == e.1) = false by simpa using hqe]
        exact ih

/-- `fsWrite` changes exactly the written path. -/
theorem lookup_fsWrite (fs : List (Str × Str)) (p c q : Str) :
    List.lookup q (fsWrite fs p c)
      = if q = p then some c else List.lookup q fs := by
  induction fs with
  | nil =>
    by_cases hqp : q = p
    · simp [fsWrite, List.lookup, hqp]
    · simp [fsWrite, List.lookup, hqp, show (q == p) = false by simpa using hqp]
  | cons e t ih =>
    by_cases hep : e.1 = p
    · have h1 : fsWrite (e :: t) p c = fsWrite t p c := by
        simp [fsWrite, hep]
      rw [h1, ih]
      by_cases hqp : q = p
      · simp [hqp]
      · simp only [hqp, if_false]
        have hqe : (q == e.1) = false := by
          have hne : q ≠ e.1 := fun h => hqp (h.trans hep)
          simpa using hne
        simp [List.lookup, hqe]
    · have h1 : fsWrite (e :: t) p c = e :: fsWrite t p c := by
        simp [fsWrite, hep]
      rw [h1]
      by_cases hqe : q = e.1
      · have hqp : ¬ q = p := fun h => hep (hqe.symm.trans h)
        simp [List.lookup, hqe, hqp, hep]
      · simp only [List.lookup, show (q == e.1) = false by simpa using hqe]
        exact ih

/-- The deletion loop removes exactly the paths of `autoupdate`-flagged
entries and leaves every other path untouched. -/
theorem lookup_remove_loop (d : Str) (l : List (Nat × SpecPatchEntry)) :
    ∀ (fs : List (Str × Str)) (q : Str),
    List.lookup q (l.foldl (fun acc np =>
        if np.2.autoupdate then fsDelete acc (pjoin d np.2.filename)
        else acc) fs)
      = if l.any (fun np => np.2.autoupdate
            && decide (pjoin d np.2.filename = q)) then none
        else List.lookup q fs := by
  induction l with
  | nil => intro fs q; simp
  | cons np t ih =>
    intro fs q
    simp only [List.foldl_cons, List.any_cons]
    by_cases hau : np.2.autoupdate
    · rw [show (if np.2.autoupdate then fsDelete fs (pjoin d np.2.filename)
          else fs) = fsDelete fs (pjoin d np.2.filename) by simp [hau]]
      rw [ih]
      by_cases hq : pjoin d np.2.filename = q
      · by_cases ht : t.any (fun np => np.2.autoupdate
            && decide (pjoin d np.2.filename = q)) <;>
          simp [hau, hq, ht, lookup_fsDelete]
      · have hq2 : ¬ q = pjoin d np.2.filename := fun hh => hq hh.symm
        by_cases ht : t.any (fun np => np.2.autoupdate
            && decide (pjoin d np.2.filename = q)) <;>
          simp [hau, hq, ht, lookup_fsDelete, hq2]
    · have hau2 : np.2.autoupdate = false := by simpa using hau
      rw [show (if np.2.autoupdate then fsDelete fs (pjoin d np.2.filename)
          else fs) = fs by simp [hau2]]
      rw [ih]
      simp only [hau2, Bool.false_and, Bool.false_or]

/-- `remove_old_patches` as a path lookup: flagged entries gone,
everything else unchanged. -/
theorem lookup_remove_old (spec : SpecModel) (fs : List (Str × Str)) (q : Str) :
    List.lookup q (remove_old_patches spec fs)
      = if spec.patches.any (fun np => np.2.autoupdate
            && decide (pjoin spec.specdir np.2.filename = q)) then none
        else List.lookup q fs :=
  lookup_remove_loop spec.specdir spec.patches fs q

/-- Writing the generated patch set leaves every path outside it
unchanged. -/
theorem lookup_writes_untouched (d : Str) (cnt : Str → Str)
    (names : List Str) :
    ∀ (fs : List (Str × Str)) (q : Str), (∀ n ∈ names, pjoin d n ≠ q) →
    List.lookup q (writePatchFiles d cnt names fs) = List.lookup q fs := by
  induction names with
  | nil => intro fs q h; simp [writePatchFiles]
  | cons n t ih =>
    intro fs q h
    have hstep : writePatchFiles d cnt (n :: t) fs
        = writePatchFiles d cnt t (fsWrite fs (pjoin d n) (cnt n)) := by
      simp [writePatchFiles]
    rw [hstep, ih _ q (fun m hm => h m (by simp [hm])), lookup_fsWrite]
    simp [show ¬ q = pjoin d n from fun hh => h n (by simp) hh.symm]

/-- C8 (corrected).  Before writing the newly generated patch set, the
export deletes from the packaging directory exactly those previously
recorded patch files flagged engine-managed (`autoupdate`) on load:
every flagged file is gone after the deletion step and every other path
is untouched by it.  A hand-maintained (unflagged) file also survives
the subsequent write of the generated set *provided no generated patch
shares its name* — a colliding name is overwritten (see the
counterexample), which the claim's "left untouched by export" rules
out.  (`spec.update_patches` then raises `AttributeError`; the deletion
and the writes have already happened.) -/
theorem C8_managed_patch_removal (repo : RRepo) (spec : SpecModel)
    (start end_ : Str) (opts : ROptions) (cnt : Str → Str)
    (fs : List (Str × Str)) (patches : List Str)
    (hgen : generate_patches_rpm repo start
        (splitColon1 opts.patch_export_squash_until).1 end_
        (splitColon1 opts.patch_export_squash_until).2 spec.specdir opts
      = .ok patches) :
    update_patch_series repo spec start end_ opts cnt fs
      = (.error .attrErr,
         writePatchFiles spec.specdir cnt patches (remove_old_patches spec fs),
         patches) ∧
    (∀ q, spec.patches.any (fun np => np.2.autoupdate
        && decide (pjoin spec.specdir np.2.filename = q)) = true →
      List.lookup q (remove_old_patches spec fs) = none) ∧
    (∀ q, spec.patches.any (fun np => np.2.autoupdate
        && decide (pjoin spec.specdir np.2.filename = q)) = false →
      List.lookup q (remove_old_patches spec fs) = List.lookup q fs) ∧
    (∀ q, (∀ n ∈ patches, pjoin spec.specdir n ≠ q) →
      List.lookup q (writePatchFiles spec.specdir cnt patches
          (remove_old_patches spec fs))
        = List.lookup q (remove_old_patches spec fs)) := by
  refine ⟨?_, ?_, ?_, ?_⟩
  · simp [update_patch_series, hgen]
  · intro q h
    rw [lookup_remove_old]
    simp [h]
  · intro q h
    rw [lookup_remove_old]
    simp [h]
  · intro q h
    exact lookup_writes_untouched spec.specdir cnt patches
      (remove_old_patches spec fs) q h

/-- C7 (corrected).  Exporting a range with no commits succeeds without
raising and skips the commit step — but no series file is recorded: the
patch directory (with any previous series file) was removed at the start
and is not recreated; the tool only logs "No patches - nothing to
do". -/
theorem C7_empty_export (be : DBackend) (opts : DOptions) (s0 : GState) (pq : Str)
    (h1 : is_pq_branch s0.current DEFAULT_PQ_BRANCH_NAME = false)
    (h2 : pq_branch_name s0.current DEFAULT_PQ_BRANCH_NAME = some pq)
    (h3 : be.hasTreeish s0.current = true)
    (h4 : be.hasTreeish pq = true)
    (h5 : be.commitsIn s0.current pq = [])
    (h6 : opts.drop = false) :
    export_patches be opts s0
      = (.ok (), { s0 with patchDirFiles := [], seriesFile := none }) := by
  have hgen : debian_generate_patches be s0.current pq
      (str "debian/patches/") = .ok [] := by
    simp [debian_generate_patches, h3, h4, h5]
  simp [export_patches, h1, h2, hgen, h6]

/-- When every candidate baseline fails, the candidate loop restores the
state it started from (original branch, no pq branch) and raises. -/
theorem import_try_loop_all_fail (be : IBackend) (pq branch : Str)
    (queue : List Patch) :
    ∀ (cs : List Str) (s : GState),
    s.current = branch → pq ∉ s.branches →
    (∀ c ∈ cs, (queue.find? (fun p => !be.applies c p)).isSome) →
    import_try_loop be pq branch queue cs s = (.error .gbpError, s) := by
  intro cs
  induction cs with
  | nil => intro s _ _ _; simp [import_try_loop]
  | cons c rest ih =>
    intro s h1 h2 h3
    have hc := h3 c (by simp)
    rcases hfind : queue.find? (fun p => !be.applies c p) with _ | p
    · rw [hfind] at hc; simp at hc
    · obtain ⟨cur, br, pd, sf, cm, td⟩ := s
      simp only at h1 h2
      subst h1
      have hbr : (br ++ [pq]).erase pq = br := by
        rw [List.erase_append_right _ h2]
        simp
      simp only [import_try_loop, hfind]
      rw [hbr]
      exact ih _ rfl h2 (fun x hx => h3 x (by simp [hx]))

/-- C1 (corrected).  The Debian import attempts at most `tries` distinct
candidate baselines (the `take tries` prefix of first-parent history);
when every candidate fails it raises `GbpError` with the repository back
on the original branch and no patch-queue branch left — but the staging
directory is *not* removed on this path: the `raise` at `pq.py:289`
precedes the cleanup at `pq.py:291-293`, so `tmpdirExists` stays true
whenever more than one candidate was tried (the RPM variant instead
removes its base tmpdir in `main`'s `finally`, `pq_rpm.py:536-537`).  On
the success path the cleanup does run (`import_finish`). -/
theorem C1_import_cleanup (be : IBackend) (tries : Nat) (queue : List Patch)
    (s0 : GState) (pq : Str)
    (h1 : is_pq_branch s0.current DEFAULT_PQ_BRANCH_NAME = false)
    (h2 : pq_branch_name s0.current DEFAULT_PQ_BRANCH_NAME = some pq)
    (h3 : pq ∉ s0.branches)
    (hfail : ∀ c ∈ be.firstParentHistory.take tries,
      (queue.find? (fun p => !be.applies c p)).isSome) :
    (be.firstParentHistory.take tries).length ≤ tries ∧
    import_quilt_patches be false tries queue s0
      = (.error .gbpError,
         if 1 < (be.firstParentHistory.take tries).length then
           { s0 with tmpdirExists := true }
         else s0) := by
  constructor
  · have := List.length_take tries be.firstParentHistory
    omega
  · have hlen := List.length_take tries be.firstParentHistory
    by_cases hcr : 1 < (be.firstParentHistory.take tries).length
    · have hc2 : 1 < tries ∧ 1 < be.firstParentHistory.length := by
        rw [hlen, Nat.lt_min] at hcr
        exact hcr
      have hloop := import_try_loop_all_fail be pq s0.current queue
        (be.firstParentHistory.take tries) { s0 with tmpdirExists := true }
        rfl h3 hfail
      simp [import_quilt_patches, h1, h2, h3, hcr, hc2, hloop, import_finish]
    · have hc2 : ¬ (1 < tries ∧ 1 < be.firstParentHistory.length) := by
        rw [hlen, Nat.lt_min] at hcr
        exact hcr
      have hloop := import_try_loop_all_fail be pq s0.current queue
        (be.firstParentHistory.take tries) s0 rfl h3 hfail
      simp [import_quilt_patches, h1, h2, h3, hcr, hc2, hloop, import_finish]

/-- Witness for C8: the engine-managed `old.patch` is deleted, while the
hand-maintained, non-colliding `keep.patch` keeps its content through
the whole export. -/
theorem C8_managed_patch_removal_witness :
    List.lookup (pjoin (str "pkg") (str "old.patch"))
        (remove_old_patches c8w_spec c8w_fs) = none ∧
    List.lookup (pjoin (str "pkg") (str "keep.patch"))
        (writePatchFiles c8w_spec.specdir c8_cnt [str "0001-c3.patch"]
          (remove_old_patches c8w_spec c8w_fs))
      = some (str "hand") := by
  have h := C8_managed_patch_removal c8_repo c8w_spec (str "U") (str "c3")
    c8_opts c8_cnt c8w_fs [str "0001-c3.patch"] (by decide)
  refine ⟨h.2.1 _ (by decide), ?_⟩
  rw [h.2.2.2 _ (by decide), h.2.2.1 _ (by decide)]
  decide

/-- C8, counterexample to the claim as stated: a hand-maintained
(non-flagged) patch file whose name collides with a generated patch is
overwritten by the export — not left untouched. -/
theorem C8_managed_patch_removal_counterexample :
    List.lookup (pjoin (str "pkg") (str "0001-c3.patch")) c8_fs0
      = some (str "hand") ∧
    List.lookup (pjoin (str "pkg") (str "0001-c3.patch"))
        (update_patch_series c8_repo c8_spec (str "U") (str "c3") c8_opts
          c8_cnt c8_fs0).2.1
      = some (str "generated") := by
  constructor <;> decide

/-- Witness for C7: exporting the empty `master..patch-queue/master`
range succeeds, leaving no series file and no commit. -/
theorem C7_empty_export_witness :
    export_patches c7_be c7_opts c7_state
      = (.ok (), { c7_state with patchDirFiles := [], seriesFile := none }) :=
  C7_empty_export c7_be c7_opts c7_state (str "patch-queue/master")
    (by decide) (by decide) (by decide) (by decide) (by decide) (by decide)

/-- C7, counterexample to the claim as stated: the run succeeds but
records no series file — the previous one is gone and no empty series is
written. -/
theorem C7_empty_export_counterexample :
    (export_patches c7_be c7_opts c7_state).1 = .ok () ∧
    c7_state.seriesFile = some [str "old.patch"] ∧
    (export_patches c7_be c7_opts c7_state).2.seriesFile = none ∧
    (export_patches c7_be c7_opts c7_state).2.seriesFile ≠ some [] := by
  refine ⟨?_, by decide, ?_, ?_⟩ <;> decide

/-- Witness for C1: with two candidate baselines both failing, the import
errors out on the original branch with no pq branch — and the staging
directory still exists. -/
theorem C1_import_cleanup_witness :
    ([str "U", str "U1"].take 2).length ≤ 2 ∧
    import_quilt_patches c1_be false 2 c1_queue c1_state
      = (.error .gbpError, { c1_state with tmpdirExists := true }) := by
  have h := C1_import_cleanup c1_be 2 c1_queue c1_state
    (str "patch-queue/master") (by decide) (by decide) (by decide)
    (by decide)
  exact ⟨h.1, h.2.trans (by decide)⟩

/-- C1, counterexample to the claim as stated: after all candidate
baselines fail, the temporary staging directory has *not* been removed
(while the repository is back on the original branch with no pq
branch). -/
theorem C1_import_cleanup_counterexample :
    (import_quilt_patches c1_be false 2 c1_queue c1_state).1
      = .error .gbpError ∧
    (import_quilt_patches c1_be false 2 c1_queue c1_state).2.current
      = str "master" ∧
    str "patch-queue/master"
      ∉ (import_quilt_patches c1_be false 2 c1_queue c1_state).2.branches ∧
    (import_quilt_patches c1_be false 2 c1_queue c1_state).2.tmpdirExists
      = true := by
  refine ⟨?_, ?_, ?_, ?_⟩ <;> decide

end GbpPq
